import Mathlib

/-!
Shallow embedding of the seat-allocation core of the airport-service
repository (src/airport/models.py, serializers.py, views.py).

Rows, seats and airplane dimensions are Django IntegerFields and are
modelled as Int.  The persistent store is a record of lists; primary keys
are Nat.  Fallible operations return Except.
-/

namespace AirportService

/-- Airplane (models.py, class Airplane): `rows` and `seats_in_row` are
plain IntegerFields with no validators. -/
structure Airplane where
  id : Nat
  rows : Int
  seats_in_row : Int
deriving DecidableEq

/-- Airplane.capacity property (models.py lines 53-55): rows * seats_in_row. -/
def Airplane.capacity (a : Airplane) : Int :=
  a.rows * a.seats_in_row

/-- Flight (models.py, class Flight); only the airplane reference matters
for the seat-allocation core. -/
structure Flight where
  id : Nat
  airplane : Airplane
deriving DecidableEq

/-- Order (models.py, class Order): an owning user (by pk). -/
structure Order where
  id : Nat
  user : Nat
deriving DecidableEq

/-- Ticket (models.py, class Ticket): row, seat, flight and order references. -/
structure Ticket where
  row : Int
  seat : Int
  flightId : Nat
  orderId : Nat
deriving DecidableEq

/-- The persistent store: the rows of the airplane, order and ticket tables. -/
structure Store where
  airplanes : List Airplane
  orders : List Order
  tickets : List Ticket
deriving DecidableEq

/-- The message built by Ticket.validate_ticket (models.py lines 117-120):
f-string "{name} number must be in available range: (1, {attr}): (1, {bound})". -/
def rangeMessage (ticket_attr_name airplane_attr_name : String) (count_attrs : Int) : String :=
  ticket_attr_name ++ " number must be in available range: (1, " ++
    airplane_attr_name ++ "): (1, " ++ toString count_attrs ++ ")"

/-- One iteration of the loop body of Ticket.validate_ticket
(models.py lines 113-122): raise a one-key error dict if the value is not
in 1..bound. -/
def checkRange (value : Int) (ticket_attr_name airplane_attr_name : String)
    (count_attrs : Int) : Except (List (String × String)) Unit :=
  if ¬ (1 ≤ value ∧ value ≤ count_attrs) then
    Except.error [(ticket_attr_name, rangeMessage ticket_attr_name airplane_attr_name count_attrs)]
  else
    Except.ok ()

/-- Ticket.validate_ticket (models.py lines 107-122).  The source iterates
over the two-element list [(row, "row", "rows"), (seat, "seat", "seats_in_row")]
and raises at the first out-of-range value; the loop is unrolled here.
The error payload is the raised dict, as a list of (field, message) pairs. -/
def validate_ticket (row seat : Int) (airplane : Airplane) :
    Except (List (String × String)) Unit :=
  match checkRange row "row" "rows" airplane.rows with
  | Except.error e => Except.error e
  | Except.ok _ => checkRange seat "seat" "seats_in_row" airplane.seats_in_row

/-- TicketSerializer.validate (serializers.py lines 100-109): delegates to
Ticket.validate_ticket on the flight's airplane. -/
def ticket_serializer_validate (row seat : Int) (flight : Flight) :
    Except (List (String × String)) Unit :=
  validate_ticket row seat flight.airplane

/-- Does any persisted ticket occupy (row, seat) on the given flight?
This is the lookup behind both Django's validate_unique query for the
unique_together ("flight", "row", "seat") constraint and the database
constraint itself (models.py lines 147-148). -/
def seatTakenOn (st : Store) (flightId : Nat) (row seat : Int) : Bool :=
  st.tickets.any fun t => t.flightId == flightId && t.row == row && t.seat == seat

/-- Errors a ticket save can produce. `validationError` carries the
field-keyed dict raised by Ticket.clean / validate_ticket;
`uniqueError` is the non-field ValidationError raised by Django's
validate_unique for the (flight, row, seat) unique_together constraint
(the seat-taken error shape); `integrityError` is the raw database
IntegrityError raised when the unique constraint itself is violated at
insert time — nothing in the source catches it. -/
inductive SaveError where
  | validationError (errors : List (String × String))
  | uniqueError (flightId : Nat) (row seat : Int)
  | integrityError
deriving DecidableEq

/-- Model.full_clean as invoked from Ticket.save (models.py lines 132-142):
clean_fields (vacuous here: the fields are plain integers), then
Ticket.clean (models.py lines 124-130, which calls validate_ticket), then
validate_unique.  Django excludes fields that already have errors from the
unique checks, and a unique_together check is skipped when any of its
fields is excluded; since every clean error here is keyed by row or seat,
the (flight, row, seat) uniqueness check runs exactly when clean passed. -/
def full_clean (st : Store) (flight : Flight) (row seat : Int) :
    Except SaveError Unit :=
  match validate_ticket row seat flight.airplane with
  | Except.error e => Except.error (SaveError.validationError e)
  | Except.ok _ =>
    if seatTakenOn st flight.id row seat then
      Except.error (SaveError.uniqueError flight.id row seat)
    else
      Except.ok ()

/-- The database INSERT under the unique_together ("flight", "row", "seat")
constraint (models.py lines 147-148): the row is appended unless the
constraint is violated, in which case the store raises IntegrityError. -/
def db_insert_ticket (st : Store) (t : Ticket) : Except SaveError Store :=
  if seatTakenOn st t.flightId t.row t.seat then
    Except.error SaveError.integrityError
  else
    Except.ok { st with tickets := st.tickets ++ [t] }

/-- Ticket.save (models.py lines 132-142): full_clean, then the INSERT.
The two phases may observe different store states: `stClean` is the state
full_clean's uniqueness query reads, `stInsert` the state the database
checks its constraint against.  A concurrent committer between the two
phases makes them differ; in a single-threaded run they coincide. -/
def ticket_save_at (stClean stInsert : Store) (flight : Flight)
    (row seat : Int) (orderId : Nat) : Except SaveError Store :=
  match full_clean stClean flight row seat with
  | Except.error e => Except.error e
  | Except.ok _ =>
      db_insert_ticket stInsert
        { row := row, seat := seat, flightId := flight.id, orderId := orderId }

/-- Ticket.save in a sequential run: both phases see the same store. -/
def ticket_save (st : Store) (flight : Flight) (row seat : Int)
    (orderId : Nat) : Except SaveError Store :=
  ticket_save_at st st flight row seat orderId

/-- The store visible after a Ticket.save call: the new state on success,
the unchanged state when the save raised. -/
def ticket_save_result (st : Store) (flight : Flight) (row seat : Int)
    (orderId : Nat) : Store :=
  match ticket_save st flight row seat orderId with
  | Except.ok st1 => st1
  | Except.error _ => st

/-- One entry of the "tickets" list posted to order creation
(serializers.py: nested TicketSerializer data), with the flight reference
already resolved. -/
structure TicketRequest where
  flight : Flight
  row : Int
  seat : Int
deriving DecidableEq

/-- The for-loop of OrderSerializer.create (serializers.py lines 181-182):
Ticket.objects.create(order=order, **ticket_data) for each request, in
input order; the first raising save aborts the loop. -/
def create_tickets (st : Store) (orderId : Nat) :
    List TicketRequest → Except SaveError Store
  | [] => Except.ok st
  | r :: rs =>
    match ticket_save st r.flight r.row r.seat orderId with
    | Except.error e => Except.error e
    | Except.ok st1 => create_tickets st1 orderId rs

/-- The body of OrderSerializer.create (serializers.py lines 177-183) as a
function of the batch bound to "tickets": inside transaction.atomic,
create the Order record, then create each Ticket.  On the wired request
path this body never receives a batch — see order_validated_tickets and
order_viewset_create below: the read_only tickets field keeps "tickets"
out of validated_data, so pop raises KeyError before this transaction
starts. -/
def order_create (st : Store) (user : Nat) (tickets_data : List TicketRequest) :
    Except SaveError Store :=
  let oid := st.orders.length
  let st1 : Store := { st with orders := st.orders ++ [{ id := oid, user := user }] }
  create_tickets st1 oid tickets_data

/-- The store visible after order creation: transaction.atomic rolls the
whole transaction back on any exception, so a failing call leaves the
original store. -/
def order_create_result (st : Store) (user : Nat)
    (tickets_data : List TicketRequest) : Store :=
  match order_create st user tickets_data with
  | Except.ok st1 => st1
  | Except.error _ => st

/-- What survives deserialization into validated_data for an order-create
request: OrderSerializer declares its tickets field read_only
(serializers.py lines 171-175), so the posted tickets list — empty or not
— is discarded and no "tickets" key is produced (id and created_at are
read-only as well); perform_create (views.py lines 177-178) only merges in
the user pk.  The result models the optional "tickets" entry of
validated_data: none means the key is absent. -/
def order_validated_tickets (_posted : List TicketRequest) :
    Option (List TicketRequest) :=
  none

/-- Errors of the wired order-creation request path: the uncaught KeyError
raised by validated_data.pop, or an error from the transaction body. -/
inductive OrderViewError where
  | keyError (key : String)
  | saveError (e : SaveError)
deriving DecidableEq

/-- Order creation as wired through OrderViewSet: DRF builds
validated_data (the read_only tickets field contributes nothing), then
OrderSerializer.create runs validated_data.pop("tickets")
(serializers.py line 179) — a KeyError when the key is absent — before any
other work; only with a tickets value present does the transaction body
order_create run. -/
def order_viewset_create (st : Store) (userPk : Nat)
    (posted : List TicketRequest) : Except OrderViewError Store :=
  match order_validated_tickets posted with
  | none => Except.error (OrderViewError.keyError "tickets")
  | some tickets_data =>
    match order_create st userPk tickets_data with
    | Except.error e => Except.error (OrderViewError.saveError e)
    | Except.ok st1 => Except.ok st1

/-- Airplane creation (AirplaneSerializer / AirplaneViewSet): the model
declares no validators and no constraints on rows or seats_in_row, so any
integer dimensions are persisted. -/
def airplane_create (st : Store) (a : Airplane) : Except SaveError Store :=
  Except.ok { st with airplanes := st.airplanes ++ [a] }

/-- The tickets_available annotation of FlightViewSet.queryset
(views.py lines 186-191): F("airplane__rows") * F("airplane__seats_in_row")
- Count("tickets"), recomputed from the store on every query. -/
def issuedTicketCount (st : Store) (flightId : Nat) : Nat :=
  (st.tickets.filter fun t => t.flightId == flightId).length

/-- tickets_available for one flight, as annotated by FlightViewSet. -/
def tickets_available (st : Store) (flight : Flight) : Int :=
  flight.airplane.rows * flight.airplane.seats_in_row -
    (issuedTicketCount st flight.id : Int)

/-- OrderViewSet.get_queryset (views.py lines 169-170):
Order.objects.filter(user=self.request.user.pk). -/
def order_get_queryset (st : Store) (userPk : Nat) : List Order :=
  st.orders.filter fun o => o.user == userPk

/-- Cascade deletion of one ticket row (on_delete=CASCADE from Flight /
Order down to Ticket): the row disappears from the ticket table. -/
def ticket_cascade_delete (st : Store) (t : Ticket) : Store :=
  { st with tickets := st.tickets.erase t }

/-- Two tickets collide on the unique_together key. -/
def sameSeatKey (a b : Ticket) : Prop :=
  a.flightId = b.flightId ∧ a.row = b.row ∧ a.seat = b.seat

instance (a b : Ticket) : Decidable (sameSeatKey a b) := by
  unfold sameSeatKey; infer_instance

/-- Invariant B: no two persisted tickets share (flight, row, seat). -/
def UniqueSeats (st : Store) : Prop :=
  st.tickets.Pairwise fun a b => ¬ sameSeatKey a b

instance (st : Store) : Decidable (UniqueSeats st) := by
  unfold UniqueSeats; infer_instance

/-- Whether a fallible operation succeeded (no exception raised). -/
def isSuccess : Except ε α → Bool
  | Except.ok _ => true
  | Except.error _ => false

/-- Concrete airplane from the spec's scenario: rows=8, seats_in_row=2. -/
def ap82 : Airplane := { id := 1, rows := 8, seats_in_row := 2 }

/-- A flight on that airplane. -/
def flight1 : Flight := { id := 1, airplane := ap82 }

/-- A store with the airplane and flight set up and no tickets or orders. -/
def store0 : Store := { airplanes := [ap82], orders := [], tickets := [] }

/-- A ticket at row 3, seat 2 on flight 1. -/
def t32 : Ticket := { row := 3, seat := 2, flightId := 1, orderId := 0 }

/-- The store after t32 was issued. -/
def store32 : Store := { airplanes := [ap82], orders := [], tickets := [t32] }

/-- A store holding a ticket whose row (0) is outside the airplane's range:
not reachable through the validated creation paths, but expressible as a
raw table state. -/
def storeRow0 : Store :=
  { airplanes := [ap82], orders := [{ id := 0, user := 7 }],
    tickets := [{ row := 0, seat := 1, flightId := 1, orderId := 0 }] }

/-- A valid request for row 3, seat 2 on flight 1. -/
def r32req : TicketRequest := { flight := flight1, row := 3, seat := 2 }

/-- The spec's canonical atomicity scenario: a batch of two tickets where
the second duplicates the first's seat. -/
def reqsDup : List TicketRequest := [r32req, r32req]

/-- An airplane with both dimensions negative; nothing in the model forbids
persisting it. -/
def apNegNeg : Airplane := { id := 2, rows := -2, seats_in_row := -3 }

/-- An airplane with zero rows. -/
def apZeroRows : Airplane := { id := 3, rows := 0, seats_in_row := 5 }

/-- A ticket request that cannot be admitted against the given store:
either the range validator rejects it, or its seat is already taken there. -/
def reqFails (st : Store) (r : TicketRequest) : Prop :=
  isSuccess (validate_ticket r.row r.seat r.flight.airplane) = false ∨
    seatTakenOn st r.flight.id r.row r.seat = true

instance (st : Store) (r : TicketRequest) : Decidable (reqFails st r) := by
  unfold reqFails; infer_instance

/-- Two requests of one batch target the same (flight, row, seat) key. -/
def sameReqKey (a b : TicketRequest) : Prop :=
  a.flight.id = b.flight.id ∧ a.row = b.row ∧ a.seat = b.seat

instance (a b : TicketRequest) : Decidable (sameReqKey a b) := by
  unfold sameReqKey; infer_instance

/-- Validation fails for some request of the batch during the transaction:
either a request already fails against the pre-call store (out of range,
or seat occupied there), or a later request duplicates the seat key of an
earlier one, in which case it collides mid-transaction with the ticket the
earlier request just inserted. -/
def batchFails (st : Store) (reqs : List TicketRequest) : Prop :=
  (∃ r ∈ reqs, reqFails st r) ∨
    ∃ a b, List.Sublist [a, b] reqs ∧ sameReqKey a b

section Theorems

/-- Characterisation of the range validator: it accepts exactly the in-range
pairs. -/
theorem validate_ticket_ok_iff (row seat : Int) (ap : Airplane) :
    validate_ticket row seat ap = Except.ok () ↔
      1 ≤ row ∧ row ≤ ap.rows ∧ 1 ≤ seat ∧ seat ≤ ap.seats_in_row := by
  unfold validate_ticket checkRange
  split_ifs with h1 h2 <;> simp_all

/-- The seat-taken lookup in propositional form. -/
theorem seatTakenOn_eq_true_iff (st : Store) (fid : Nat) (row seat : Int) :
    seatTakenOn st fid row seat = true ↔
      ∃ t ∈ st.tickets, t.flightId = fid ∧ t.row = row ∧ t.seat = seat := by
  unfold seatTakenOn
  simp [List.any_eq_true, Bool.and_eq_true, beq_iff_eq, and_assoc]

/-- A free seat means no persisted ticket matches the key. -/
theorem seatTakenOn_eq_false_iff (st : Store) (fid : Nat) (row seat : Int) :
    seatTakenOn st fid row seat = false ↔
      ∀ t ∈ st.tickets, ¬(t.flightId = fid ∧ t.row = row ∧ t.seat = seat) := by
  rw [← Bool.not_eq_true, seatTakenOn_eq_true_iff]
  push_neg
  simp

/-- Appending one ticket extends the seat-taken lookup by one key test. -/
theorem seatTakenOn_append (st : Store) (t : Ticket) (fid : Nat) (row seat : Int) :
    seatTakenOn { st with tickets := st.tickets ++ [t] } fid row seat =
      (seatTakenOn st fid row seat ||
        (t.flightId == fid && t.row == row && t.seat == seat)) := by
  unfold seatTakenOn
  simp [List.any_append]

/-- What a successful sequential Ticket.save means: the validator accepted,
the seat was free, and the new ticket row was appended. -/
theorem ticket_save_ok_elim (st : Store) (flight : Flight) (row seat : Int)
    (oid : Nat) (st' : Store)
    (h : ticket_save st flight row seat oid = Except.ok st') :
    validate_ticket row seat flight.airplane = Except.ok () ∧
      seatTakenOn st flight.id row seat = false ∧
      st' = { st with tickets := st.tickets ++
        [{ row := row, seat := seat, flightId := flight.id, orderId := oid }] } := by
  unfold ticket_save ticket_save_at full_clean db_insert_ticket at h
  cases hv : validate_ticket row seat flight.airplane with
  | error e => rw [hv] at h; cases h
  | ok u =>
    cases u
    rw [hv] at h
    by_cases ht : seatTakenOn st flight.id row seat
    · simp [ht] at h
    · simp [ht] at h
      exact ⟨rfl, by simpa using ht, h.symm⟩

/-- Ticket.save succeeds exactly when the range validator accepts and the
seat is not already taken. -/
theorem ticket_save_isSuccess (st : Store) (flight : Flight) (row seat : Int)
    (oid : Nat) :
    isSuccess (ticket_save st flight row seat oid) =
      (isSuccess (validate_ticket row seat flight.airplane) &&
        !seatTakenOn st flight.id row seat) := by
  unfold ticket_save ticket_save_at full_clean db_insert_ticket isSuccess
  cases hv : validate_ticket row seat flight.airplane with
  | error e => simp
  | ok u =>
    cases u
    by_cases ht : seatTakenOn st flight.id row seat <;> simp [ht]

/-- Inserting a ticket whose seat key is free preserves Invariant B. -/
theorem uniqueSeats_insert (st : Store) (t : Ticket) (h : UniqueSeats st)
    (hfree : seatTakenOn st t.flightId t.row t.seat = false) :
    UniqueSeats { st with tickets := st.tickets ++ [t] } := by
  unfold UniqueSeats at h ⊢
  rw [List.pairwise_append]
  refine ⟨h, List.pairwise_singleton _ _, fun a ha b hb => ?_⟩
  have hb1 : b = t := by simpa using hb
  have hkey := (seatTakenOn_eq_false_iff st t.flightId t.row t.seat).mp hfree a ha
  rw [hb1]
  unfold sameSeatKey
  tauto

/-- The ticket-creation loop of order creation preserves Invariant B. -/
theorem create_tickets_preserves (oid : Nat) :
    ∀ (reqs : List TicketRequest) (st st' : Store), UniqueSeats st →
      create_tickets st oid reqs = Except.ok st' → UniqueSeats st'
  | [], st, st', h, heq => by
      unfold create_tickets at heq; cases heq; exact h
  | r :: rs, st, st', h, heq => by
      unfold create_tickets at heq
      cases hs : ticket_save st r.flight r.row r.seat oid with
      | error e => rw [hs] at heq; cases heq
      | ok st1 =>
          rw [hs] at heq
          obtain ⟨hv, hfree, hst1⟩ := ticket_save_ok_elim st r.flight r.row r.seat oid st1 hs
          have h1 : UniqueSeats st1 := by
            rw [hst1]
            exact uniqueSeats_insert st _ h hfree
          exact create_tickets_preserves oid rs st1 st' h1 heq

/-- A successful save keeps every previously taken seat taken. -/
theorem seatTakenOn_mono_save (st st1 : Store) (flight : Flight)
    (row seat : Int) (oid : Nat)
    (h : ticket_save st flight row seat oid = Except.ok st1)
    (fid : Nat) (r s : Int) (ht : seatTakenOn st fid r s = true) :
    seatTakenOn st1 fid r s = true := by
  obtain ⟨_, _, hst1⟩ := ticket_save_ok_elim st flight row seat oid st1 h
  rw [hst1, seatTakenOn_append, ht]
  rfl

/-- If some request in the batch fails against the starting store, the
ticket-creation loop raises. -/
theorem create_tickets_fails (oid : Nat) :
    ∀ (reqs : List TicketRequest) (st : Store),
      (∃ r ∈ reqs, reqFails st r) →
      isSuccess (create_tickets st oid reqs) = false
  | [], _, h => by simp at h
  | r0 :: rs, st, h => by
      unfold create_tickets
      cases hs : ticket_save st r0.flight r0.row r0.seat oid with
      | error e => rfl
      | ok st1 =>
          obtain ⟨r, hr, hfail⟩ := h
          rcases List.mem_cons.mp hr with rfl | hrs
          · exfalso
            have hok := ticket_save_isSuccess st r.flight r.row r.seat oid
            rw [hs] at hok
            have hok1 : (isSuccess (validate_ticket r.row r.seat r.flight.airplane) &&
                !seatTakenOn st r.flight.id r.row r.seat) = true := by
              rw [← hok]; rfl
            rw [Bool.and_eq_true, Bool.not_eq_true'] at hok1
            unfold reqFails at hfail
            rcases hfail with hv | ht
            · rw [hok1.1] at hv; cases hv
            · rw [hok1.2] at ht; cases ht
          · apply create_tickets_fails oid rs st1
            refine ⟨r, hrs, ?_⟩
            unfold reqFails at hfail ⊢
            rcases hfail with hv | ht
            · exact Or.inl hv
            · exact Or.inr
                (seatTakenOn_mono_save st st1 r0.flight r0.row r0.seat oid hs
                  r.flight.id r.row r.seat ht)

/-- Claim C1: every reachable store keeps (flight, row, seat) unique across
all persisted tickets: starting from any store satisfying Invariant B, both
a direct Ticket.save and a whole order creation can only produce stores
that still satisfy it. -/
theorem seat_uniqueness_preserved (st : Store) (h : UniqueSeats st) :
    (∀ flight row seat oid st',
        ticket_save st flight row seat oid = Except.ok st' → UniqueSeats st') ∧
      ∀ user reqs st',
        order_create st user reqs = Except.ok st' → UniqueSeats st' := by
  constructor
  · intro flight row seat oid st' hs
    obtain ⟨hv, hfree, hst'⟩ := ticket_save_ok_elim st flight row seat oid st' hs
    rw [hst']
    exact uniqueSeats_insert st _ h hfree
  · intro user reqs st' hs
    unfold order_create at hs
    dsimp only at hs
    exact create_tickets_preserves st.orders.length reqs
      { st with orders := st.orders ++ [{ id := st.orders.length, user := user }] }
      st' h hs

theorem seat_uniqueness_preserved_witness :
    UniqueSeats store32 ∧
      ((∀ flight row seat oid st',
          ticket_save store32 flight row seat oid = Except.ok st' → UniqueSeats st') ∧
        ∀ user reqs st',
          order_create store32 user reqs = Except.ok st' → UniqueSeats st') :=
  ⟨by decide, seat_uniqueness_preserved store32 (by decide)⟩

/-- A batch containing two requests with the same seat key cannot be
created: when the earlier one's save succeeds, its freshly inserted ticket
occupies the key, so the later one fails against the mid-transaction
store. -/
theorem create_tickets_fails_dup (oid : Nat) :
    ∀ (reqs : List TicketRequest) (st : Store) (a b : TicketRequest),
      List.Sublist [a, b] reqs → sameReqKey a b →
      isSuccess (create_tickets st oid reqs) = false
  | [], _, _, _, hsub, _ => by cases hsub
  | r :: rs, st, a, b, hsub, hkey => by
      unfold create_tickets
      cases hs : ticket_save st r.flight r.row r.seat oid with
      | error e => rfl
      | ok st1 =>
        cases hsub with
        | cons _ h1 =>
            exact create_tickets_fails_dup oid rs st1 a b h1 hkey
        | cons₂ _ h1 =>
            apply create_tickets_fails oid rs st1
            refine ⟨b, List.singleton_sublist.mp h1, Or.inr ?_⟩
            obtain ⟨_, _, hst1⟩ := ticket_save_ok_elim st r.flight r.row r.seat oid st1 hs
            rw [hst1, seatTakenOn_append]
            obtain ⟨k1, k2, k3⟩ := hkey
            simp [k1, k2, k3]

/-- Claim C3: order creation is all-or-nothing: if validation fails for any
request of the batch — it is out of range, its seat is occupied in the
pre-call store, or it duplicates the seat key of another request of the
same batch and so collides mid-transaction with the freshly inserted
ticket — the call raises and the visible store after the transaction is
exactly the starting store: no Order and no Ticket of the batch is
persisted. -/
theorem order_create_all_or_nothing (st : Store) (user : Nat)
    (reqs : List TicketRequest) (h : batchFails st reqs) :
    isSuccess (order_create st user reqs) = false ∧
      order_create_result st user reqs = st := by
  have hfail : isSuccess (order_create st user reqs) = false := by
    unfold order_create
    dsimp only
    rcases h with ⟨r, hr, hf⟩ | ⟨a, b, hsub, hkey⟩
    · exact create_tickets_fails st.orders.length reqs
        { st with orders := st.orders ++ [{ id := st.orders.length, user := user }] }
        ⟨r, hr, hf⟩
    · exact create_tickets_fails_dup st.orders.length reqs
        { st with orders := st.orders ++ [{ id := st.orders.length, user := user }] }
        a b hsub hkey
  refine ⟨hfail, ?_⟩
  unfold order_create_result
  cases ho : order_create st user reqs with
  | ok st1 => rw [ho] at hfail; cases hfail
  | error e => rfl

theorem order_create_all_or_nothing_witness :
    batchFails store0 reqsDup ∧
      (isSuccess (order_create store0 7 reqsDup) = false ∧
        order_create_result store0 7 reqsDup = store0) :=
  ⟨Or.inr ⟨r32req, r32req, List.Sublist.refl reqsDup, by decide⟩,
    order_create_all_or_nothing store0 7 reqsDup
      (Or.inr ⟨r32req, r32req, List.Sublist.refl reqsDup, by decide⟩)⟩

/-- Claim C2: the seat-range validation accepts (row, seat) exactly when
1 ≤ row ≤ rows and 1 ≤ seat ≤ seats_in_row (so the four outside boundary
values are rejected and the four inside ones accepted), and both
ticket-creation paths invoke it: TicketSerializer.validate is exactly this
validator applied to the flight's airplane, and Ticket.save succeeds only
when this validator accepts. -/
theorem validate_range_iff_on_both_paths (ap : Airplane) (row seat : Int)
    (st : Store) (flight : Flight) (oid : Nat) :
    (validate_ticket row seat ap = Except.ok () ↔
      1 ≤ row ∧ row ≤ ap.rows ∧ 1 ≤ seat ∧ seat ≤ ap.seats_in_row) ∧
      ticket_serializer_validate row seat flight =
        validate_ticket row seat flight.airplane ∧
      isSuccess (ticket_save st flight row seat oid) =
        (isSuccess (validate_ticket row seat flight.airplane) &&
          !seatTakenOn st flight.id row seat) :=
  ⟨validate_ticket_ok_iff row seat ap, rfl, ticket_save_isSuccess st flight row seat oid⟩

/-- Appending one ticket row shifts the issued-ticket count of a flight by
one exactly when the ticket belongs to it. -/
theorem issuedTicketCount_append (st : Store) (t : Ticket) (fid : Nat) :
    issuedTicketCount { st with tickets := st.tickets ++ [t] } fid =
      issuedTicketCount st fid + (if t.flightId == fid then 1 else 0) := by
  unfold issuedTicketCount
  rw [List.filter_append, List.length_append]
  cases h : t.flightId == fid <;> simp [h]

/-- Erasing a persisted ticket of the flight lowers its issued-ticket count
by one. -/
theorem issuedTicketCount_erase (st : Store) (t : Ticket) (fid : Nat)
    (ht : t ∈ st.tickets) (hf : t.flightId = fid) :
    issuedTicketCount st fid =
      issuedTicketCount (ticket_cascade_delete st t) fid + 1 := by
  unfold issuedTicketCount ticket_cascade_delete
  have hperm : st.tickets.Perm (t :: st.tickets.erase t) := List.perm_cons_erase ht
  rw [(hperm.filter fun x => x.flightId == fid).length_eq]
  simp [hf]

/-- Claim C5: tickets_available is recomputed from current state on every
query: it always equals capacity minus the issued-ticket count, drops by
one immediately after a ticket creation on the flight, and rises by one
immediately after a deletion of one of the flight's tickets. -/
theorem tickets_available_recomputed (st : Store) (f : Flight) :
    tickets_available st f =
        f.airplane.capacity - (issuedTicketCount st f.id : Int) ∧
      (∀ row seat oid st', ticket_save st f row seat oid = Except.ok st' →
        tickets_available st' f = tickets_available st f - 1) ∧
      ∀ t ∈ st.tickets, t.flightId = f.id →
        tickets_available (ticket_cascade_delete st t) f =
          tickets_available st f + 1 := by
  refine ⟨rfl, ?_, ?_⟩
  · intro row seat oid st' hs
    obtain ⟨_, _, hst'⟩ := ticket_save_ok_elim st f row seat oid st' hs
    rw [hst']
    unfold tickets_available
    rw [issuedTicketCount_append]
    simp
    ring
  · intro t ht hf
    unfold tickets_available
    rw [issuedTicketCount_erase st t f.id ht hf]
    push_cast
    ring_nf

theorem tickets_available_recomputed_witness :
    (t32 ∈ store32.tickets ∧ t32.flightId = flight1.id) ∧
      tickets_available (ticket_cascade_delete store32 t32) flight1 =
        tickets_available store32 flight1 + 1 ∧
      tickets_available store32 flight1 = tickets_available store0 flight1 - 1 ∧
      tickets_available store0 flight1 =
        flight1.airplane.capacity - (issuedTicketCount store0 flight1.id : Int) :=
  ⟨⟨by decide, by decide⟩,
    (tickets_available_recomputed store32 flight1).2.2 t32 (by decide) (by decide),
    (tickets_available_recomputed store0 flight1).2.1 3 2 0 store32 rfl,
    (tickets_available_recomputed store0 flight1).1⟩

/-- Claim C8, evaluated against the wired code: order creation with an
empty posted batch — like any batch — raises KeyError "tickets" and
persists nothing, because the read_only tickets field keeps the key out of
validated_data and create's pop runs before anything else; whereas the
create body itself, had it received the empty batch, would have succeeded
and persisted an Order with zero tickets, which is the behavior the claim
describes. -/
theorem empty_order_keyerror (st : Store) (userPk : Nat) :
    order_viewset_create st userPk [] =
        Except.error (OrderViewError.keyError "tickets") ∧
      order_create st userPk [] = Except.ok
        { st with orders := st.orders ++
          [{ id := st.orders.length, user := userPk }] } := by
  exact ⟨rfl, rfl⟩

/-- Claim C10: the order list is scoped to the requesting user: an order
appears in OrderViewSet.get_queryset's result exactly when it is persisted
and owned by that user; no other user's order is ever in the result. -/
theorem order_list_scoped_to_user (st : Store) (userPk : Nat) (o : Order) :
    o ∈ order_get_queryset st userPk ↔ o ∈ st.orders ∧ o.user = userPk := by
  unfold order_get_queryset
  simp [List.mem_filter]

/-- Counterexample to C4: a uniqueness violation first detected by the
persistence layer — full_clean read a store where (flight 1, row 3, seat 2)
was still free, but a concurrent committer had taken it by insert time —
surfaces as the raw IntegrityError; nothing in the source catches it and
translates it into the seat-taken error shape. -/
theorem race_integrity_error_not_translated :
    ticket_save_at store0 store32 flight1 3 2 5 =
        Except.error SaveError.integrityError ∧
      SaveError.integrityError ≠ SaveError.uniqueError 1 3 2 ∧
      (∀ es, SaveError.integrityError ≠ SaveError.validationError es) := by
  refine ⟨rfl, by decide, ?_⟩
  intro es h
  cases h

/-- Claim C4 (amended): a sequential duplicate creation — full_clean and the
insert observing the same store — fails with the non-field seat-taken
uniqueness error and persists nothing; but a constraint violation first
detected at the persistence layer (the concurrent-race case) is not
translated: it surfaces as the raw IntegrityError. -/
theorem duplicate_seat_rejected (st : Store) (flight : Flight)
    (row seat : Int) (oid : Nat)
    (hin : validate_ticket row seat flight.airplane = Except.ok ())
    (htaken : seatTakenOn st flight.id row seat = true) :
    ticket_save st flight row seat oid =
        Except.error (SaveError.uniqueError flight.id row seat) ∧
      ticket_save_result st flight row seat oid = st ∧
      ∀ stClean : Store, seatTakenOn stClean flight.id row seat = false →
        ticket_save_at stClean st flight row seat oid =
          Except.error SaveError.integrityError := by
  have hsave : ticket_save st flight row seat oid =
      Except.error (SaveError.uniqueError flight.id row seat) := by
    simp [ticket_save, ticket_save_at, full_clean, hin, htaken]
  refine ⟨hsave, ?_, ?_⟩
  · unfold ticket_save_result
    rw [hsave]
  · intro stClean hfree
    simp [ticket_save_at, full_clean, db_insert_ticket, hin, hfree, htaken]

theorem duplicate_seat_rejected_witness :
    (validate_ticket 3 2 flight1.airplane = Except.ok () ∧
      seatTakenOn store32 flight1.id 3 2 = true) ∧
      (ticket_save store32 flight1 3 2 5 =
          Except.error (SaveError.uniqueError flight1.id 3 2) ∧
        ticket_save_result store32 flight1 3 2 5 = store32 ∧
        ∀ stClean : Store, seatTakenOn stClean flight1.id 3 2 = false →
          ticket_save_at stClean store32 flight1 3 2 5 =
            Except.error SaveError.integrityError) :=
  ⟨⟨rfl, rfl⟩, duplicate_seat_rejected store32 flight1 3 2 5 rfl rfl⟩

/-- Counterexample to C6: with rows = 8, seats_in_row = 2 and the request
(row = 0, seat = 0) both fields violate their ranges, yet the raised error
dict carries only the row entry — no seat-keyed entry is reported. -/
theorem both_out_of_range_only_row_reported :
    validate_ticket 0 0 ap82 = Except.error
        [("row", "row number must be in available range: (1, rows): (1, 8)")] ∧
      (([("row", "row number must be in available range: (1, rows): (1, 8)")].map
          Prod.fst).contains "seat") = false := by
  exact ⟨rfl, rfl⟩

/-- Claim C6 (amended): row and seat are checked independently of each
other's value but in a fixed order, and the validator raises at the first
violating field: when both are out of range, the error carries exactly the
row entry, keyed by field name with the source's message format. -/
theorem first_violating_field_reported (ap : Airplane) (row seat : Int)
    (hr : ¬ (1 ≤ row ∧ row ≤ ap.rows))
    (_hs : ¬ (1 ≤ seat ∧ seat ≤ ap.seats_in_row)) :
    validate_ticket row seat ap =
      Except.error [("row", rangeMessage "row" "rows" ap.rows)] := by
  simp [validate_ticket, checkRange, hr]

theorem first_violating_field_reported_witness :
    (¬ (1 ≤ (0 : Int) ∧ (0 : Int) ≤ ap82.rows)) ∧
      (¬ (1 ≤ (0 : Int) ∧ (0 : Int) ≤ ap82.seats_in_row)) ∧
      validate_ticket 0 0 ap82 =
        Except.error [("row", rangeMessage "row" "rows" ap82.rows)] :=
  ⟨by decide, by decide,
    first_violating_field_reported ap82 0 0 (by decide) (by decide)⟩

/-- Claim C7: on the ticket-save path the range checks run before the
uniqueness check: a request that fails the range checks — in particular one
whose seat key is even occupied in the store — raises the field-keyed
range error, and the seat-taken uniqueness error is never the outcome. -/
theorem range_checked_before_uniqueness (st : Store) (flight : Flight)
    (row seat : Int) (oid : Nat) (es : List (String × String))
    (hv : validate_ticket row seat flight.airplane = Except.error es)
    (_htaken : seatTakenOn st flight.id row seat = true) :
    ticket_save st flight row seat oid =
        Except.error (SaveError.validationError es) ∧
      ∀ fid r s, ticket_save st flight row seat oid ≠
        Except.error (SaveError.uniqueError fid r s) := by
  have hsave : ticket_save st flight row seat oid =
      Except.error (SaveError.validationError es) := by
    simp [ticket_save, ticket_save_at, full_clean, hv]
  refine ⟨hsave, ?_⟩
  intro fid r s h
  rw [hsave] at h
  cases h

theorem range_checked_before_uniqueness_witness :
    (validate_ticket 0 1 flight1.airplane =
        Except.error [("row", rangeMessage "row" "rows" 8)] ∧
      seatTakenOn storeRow0 flight1.id 0 1 = true) ∧
      (ticket_save storeRow0 flight1 0 1 9 = Except.error
          (SaveError.validationError [("row", rangeMessage "row" "rows" 8)]) ∧
        ∀ fid r s, ticket_save storeRow0 flight1 0 1 9 ≠
          Except.error (SaveError.uniqueError fid r s)) :=
  ⟨⟨rfl, rfl⟩,
    range_checked_before_uniqueness storeRow0 flight1 0 1 9
      [("row", rangeMessage "row" "rows" 8)] rfl rfl⟩

/-- Counterexample to C9: the airplane with rows = -2 and seats_in_row = -3
is accepted (no constraint rejects it) and the validator rejects every
seat, but its capacity — and with no tickets its tickets_available — is the
positive number 6, not a zero or negative integer. -/
theorem negative_dims_positive_capacity :
    apNegNeg.rows ≤ 0 ∧
      isSuccess (airplane_create store0 apNegNeg) = true ∧
      apNegNeg.capacity = 6 ∧
      tickets_available
        { store0 with airplanes := store0.airplanes ++ [apNegNeg] }
        { id := 2, airplane := apNegNeg } = 6 ∧
      ¬ apNegNeg.capacity ≤ 0 := by
  refine ⟨by decide, rfl, rfl, ?_, by decide⟩
  decide

/-- Claim C9 (amended): airplane dimensions are not constrained to be
positive: any integer dimensions are persisted; when rows ≤ 0 or
seats_in_row ≤ 0 the seat validator rejects every (row, seat) pair; and
capacity = rows × seats_in_row is zero or negative whenever the other
dimension is nonnegative (with both dimensions negative it is positive). -/
theorem nonpositive_dimensions_behavior (st : Store) (ap : Airplane)
    (h : ap.rows ≤ 0 ∨ ap.seats_in_row ≤ 0) :
    isSuccess (airplane_create st ap) = true ∧
      (∀ row seat : Int, validate_ticket row seat ap ≠ Except.ok ()) ∧
      (ap.rows ≤ 0 → 0 ≤ ap.seats_in_row → ap.capacity ≤ 0) ∧
      (ap.seats_in_row ≤ 0 → 0 ≤ ap.rows → ap.capacity ≤ 0) := by
  refine ⟨rfl, ?_, ?_, ?_⟩
  · intro row seat hok
    rw [validate_ticket_ok_iff] at hok
    omega
  · intro h1 h2
    unfold Airplane.capacity
    nlinarith
  · intro h1 h2
    unfold Airplane.capacity
    nlinarith

theorem nonpositive_dimensions_behavior_witness :
    (apZeroRows.rows ≤ 0 ∨ apZeroRows.seats_in_row ≤ 0) ∧
      (isSuccess (airplane_create store0 apZeroRows) = true ∧
        (∀ row seat : Int, validate_ticket row seat apZeroRows ≠ Except.ok ()) ∧
        (apZeroRows.rows ≤ 0 → 0 ≤ apZeroRows.seats_in_row →
          apZeroRows.capacity ≤ 0) ∧
        (apZeroRows.seats_in_row ≤ 0 → 0 ≤ apZeroRows.rows →
          apZeroRows.capacity ≤ 0)) :=
  ⟨by decide, nonpositive_dimensions_behavior store0 apZeroRows (by decide)⟩

end Theorems

end AirportService
